import Mathlib

/-!
Shallow embedding of the bid-evaluation scoring core of `app.py`
(functions `calculate_first_average`, `calculate_second_average`,
`calculate_price_score` and the main-script pipeline that chains them),
with prices and parameters modelled as rationals.  Division by zero in ℚ
is the usual Lean convention `x / 0 = 0`; where the Python source divides
by zero through `np.mean([])` (which yields NaN) the relevant theorems
say so explicitly in their doc comments.
-/

set_option maxRecDepth 100000

namespace App

/-- `np.mean`: sum divided by length (NaN on `[]` in NumPy; here `0/0 = 0`). -/
def mean (l : List ℚ) : ℚ := l.sum / l.length

/-- Python `max(prices)` on a non-empty list (`0` on `[]`, unused there). -/
def listMax : List ℚ → ℚ
  | [] => 0
  | x :: xs => xs.foldl max x

/-- The stop index of the Python slice `sorted_prices[k:n-m]`: when `m ≤ n`
it is `n - m`; when `m > n` the Python stop `n - m` is negative, so Python
adds `n` once (giving `2n - m`) and clamps at `0` (ℕ subtraction clamps). -/
def trimStop (n m : ℕ) : ℕ := if m ≤ n then n - m else 2 * n - m

/-- `sorted_prices[k:n-m]` from line 36-37 of `app.py`: sort ascending,
then take the slice from index `k` up to the (normalised) stop index. -/
def remainingAfterTrim (prices : List ℚ) (m k : ℕ) : List ℚ :=
  ((List.insertionSort (· ≤ ·) prices).take (trimStop prices.length m)).drop k

def firstAvgNoteAll : String := "所有评标价的平均值"

def firstAvgNoteZero : String := "所有评标价的平均值（剔除后有效供应商数为0）"

def firstAvgNoteOne : String := "去掉最高价后的平均值（剔除后有效供应商数为1）"

def firstAvgNoteRest : String := "剩余评标价的平均值"

/-- `calculate_first_average(prices, m, k)` from `app.py` lines 29-45:
first average A1, its basis list, and the explanatory note. -/
def calculate_first_average (prices : List ℚ) (m k : ℕ) : ℚ × List ℚ × String :=
  if prices.length ≤ 3 then (mean prices, prices, firstAvgNoteAll)
  else if (remainingAfterTrim prices m k).length = 0 then
    (mean prices, prices, firstAvgNoteZero)
  else if (remainingAfterTrim prices m k).length = 1 then
    (mean (prices.filter (fun p => decide (p ≠ listMax prices))),
     prices.filter (fun p => decide (p ≠ listMax prices)), firstAvgNoteOne)
  else
    (mean (remainingAfterTrim prices m k), remainingAfterTrim prices m k, firstAvgNoteRest)

/-- The list comprehension of line 49: prices of the basis whose relative
deviation `(first_avg - p) / first_avg` lies in the band `[s1, s2]`. -/
def validBand (prices : List ℚ) (first_avg s1 s2 : ℚ) : List ℚ :=
  prices.filter (fun p =>
    decide (s1 ≤ (first_avg - p) / first_avg ∧ (first_avg - p) / first_avg ≤ s2))

def secondAvgNoteFallback : String := "使用首次平均价（无有效价格在偏离范围内）"

def secondAvgNoteBand : String := "偏离范围内价格的平均值"

/-- `calculate_second_average(prices, first_avg, s1, s2)` from `app.py`
lines 47-52. -/
def calculate_second_average (prices : List ℚ) (first_avg s1 s2 : ℚ) :
    ℚ × List ℚ × String :=
  if validBand prices first_avg s1 s2 = [] then
    (first_avg, prices, secondAvgNoteFallback)
  else
    (mean (validBand prices first_avg s1 s2), validBand prices first_avg s1 s2,
     secondAvgNoteBand)

/-- Python `round(x, 2)`: round `x` to two decimal places (modelled with
Mathlib's round-to-nearest; the claims never hit a half-way tie, where
Python's float round-half-even could differ). -/
def round2 (x : ℚ) : ℚ := (round (x * 100) : ℤ) / 100

/-- `calculate_price_score(bid_price, base_price, e_higher, e_lower)` from
`app.py` lines 54-63.  An exact match returns `100.0` before any rounding;
otherwise the branch score is rounded to 2 decimals and clamped at `0`. -/
def calculate_price_score (bid_price base_price e_higher e_lower : ℚ) : ℚ :=
  if bid_price = base_price then 100
  else if bid_price > base_price then
    max (round2 (100 - |bid_price - base_price| / base_price * 100 * e_higher)) 0
  else
    max (round2 (100 - |bid_price - base_price| / base_price * 100 * e_lower)) 0

/-- The main-script pipeline (`app.py` lines 185-226): A1 over the input
prices, A2 over A1's basis, benchmark `D = A2 × K`, then a score for every
original price. -/
def evaluateScores (prices : List ℚ) (m k : ℕ) (s1 s2 K e_higher e_lower : ℚ) :
    List ℚ :=
  (calculate_first_average prices m k).1 |> fun first_avg =>
  (calculate_second_average (calculate_first_average prices m k).2.1
      first_avg s1 s2).1 |> fun second_avg =>
  prices.map (fun p => calculate_price_score p (second_avg * K) e_higher e_lower)

/-! ### Helper lemmas -/

theorem round2_mono {x y : ℚ} (h : x ≤ y) : round2 x ≤ round2 y := by
  have h1 : round (x * 100) ≤ round (y * 100) := by
    rw [round_eq, round_eq]
    exact Int.floor_le_floor (by linarith)
  have h2 : ((round (x * 100) : ℤ) : ℚ) ≤ ((round (y * 100) : ℤ) : ℚ) := by
    exact_mod_cast h1
  unfold round2
  linarith

theorem round2_hundred : round2 100 = 100 := by
  unfold round2
  rw [show (100 : ℚ) * 100 = ((10000 : ℤ) : ℚ) by norm_num, round_intCast]
  norm_num

/-- Whatever the bid, the clamped-and-rounded score never exceeds 100 when the
benchmark and both penalty coefficients are non-negative. -/
theorem score_le_hundred (p D eh el : ℚ) (hD : 0 ≤ D) (heh : 0 ≤ eh)
    (hel : 0 ≤ el) : calculate_price_score p D eh el ≤ 100 := by
  unfold calculate_price_score
  split_ifs with h1 h2
  · exact le_refl _
  · have ht : 0 ≤ |p - D| / D * 100 * eh :=
      mul_nonneg (mul_nonneg (div_nonneg (abs_nonneg _) hD) (by norm_num)) heh
    have := round2_mono (show 100 - |p - D| / D * 100 * eh ≤ 100 by linarith)
    rw [round2_hundred] at this
    exact max_le this (by norm_num)
  · have ht : 0 ≤ |p - D| / D * 100 * el :=
      mul_nonneg (mul_nonneg (div_nonneg (abs_nonneg _) hD) (by norm_num)) hel
    have := round2_mono (show 100 - |p - D| / D * 100 * el ≤ 100 by linarith)
    rw [round2_hundred] at this
    exact max_le this (by norm_num)

/-! ### C4: tiny pools take the plain mean, trim parameters ignored -/

/-- C4: for every price list of size `n ≤ 3` and arbitrary trim counts `m`
and `k`, `calculate_first_average` returns the plain arithmetic mean of all
`n` prices with the full list as basis and the all-bids note; the trim
parameters have no effect. -/
theorem first_average_small_pool (prices : List ℚ) (m k : ℕ)
    (h : prices.length ≤ 3) :
    calculate_first_average prices m k = (mean prices, prices, firstAvgNoteAll) := by
  unfold calculate_first_average
  rw [if_pos h]

/-- C4 witness: a single bid of 150 with aggressive trim counts still yields
the plain mean of the full list. -/
theorem first_average_small_pool_witness :
    calculate_first_average [150] 5 7 = (mean [150], [150], firstAvgNoteAll) :=
  first_average_small_pool [150] 5 7 (by norm_num)

/-! ### C6: a bid exactly at the benchmark scores exactly 100 -/

/-- C6: for every benchmark price `D > 0` and any penalty coefficients, a bid
price exactly equal to `D` scores exactly 100 (the equality branch of
`calculate_price_score` returns before any rounding). -/
theorem score_at_benchmark (D eh el : ℚ) (hD : 0 < D) :
    calculate_price_score D D eh el = 100 := by
  unfold calculate_price_score
  rw [if_pos rfl]

/-- C6 witness: the benchmark 90 of the spec's concrete scenario scores 100. -/
theorem score_at_benchmark_witness : calculate_price_score 90 90 1 (1/2) = 100 :=
  score_at_benchmark 90 1 (1/2) (by norm_num)

/-! ### C5: the deviation band of the second average -/

/-- C5: for every basis list `R` and `A1 ≠ 0`, `calculate_second_average`
keeps exactly the prices `p` of `R` with `s1 ≤ (A1 - p) / A1 ≤ s2` and
returns their mean as A2; when no price of `R` satisfies the band it returns
`A2 = A1` exactly with the basis `R` unchanged (and the fallback note). -/
theorem second_average_band (R : List ℚ) (A1 s1 s2 : ℚ) (hA1 : A1 ≠ 0) (p : ℚ) :
    (p ∈ validBand R A1 s1 s2 ↔
      p ∈ R ∧ s1 ≤ (A1 - p) / A1 ∧ (A1 - p) / A1 ≤ s2) ∧
    (validBand R A1 s1 s2 ≠ [] →
      calculate_second_average R A1 s1 s2 =
        (mean (validBand R A1 s1 s2), validBand R A1 s1 s2, secondAvgNoteBand)) ∧
    (validBand R A1 s1 s2 = [] →
      calculate_second_average R A1 s1 s2 = (A1, R, secondAvgNoteFallback)) := by
  refine ⟨?_, ?_, ?_⟩
  · simp [validBand, List.mem_filter, and_assoc]
  · intro h
    unfold calculate_second_average
    rw [if_neg h]
  · intro h
    unfold calculate_second_average
    rw [if_pos h]

/-- C5 witness: instantiated at the spec's concrete scenario basis with
`A1 = 100`, the band `[-0.2, 0.1]` and the probe price 100. -/
theorem second_average_band_witness :
    ((100 : ℚ) ∈ validBand [90, 95, 100, 105, 110] 100 (-1/5) (1/10) ↔
      (100 : ℚ) ∈ [(90 : ℚ), 95, 100, 105, 110] ∧
        (-1/5 : ℚ) ≤ (100 - 100) / 100 ∧ ((100 : ℚ) - 100) / 100 ≤ 1/10) ∧
    (validBand [90, 95, 100, 105, 110] 100 (-1/5) (1/10) ≠ [] →
      calculate_second_average [90, 95, 100, 105, 110] 100 (-1/5) (1/10) =
        (mean (validBand [90, 95, 100, 105, 110] 100 (-1/5) (1/10)),
         validBand [90, 95, 100, 105, 110] 100 (-1/5) (1/10), secondAvgNoteBand)) ∧
    (validBand [90, 95, 100, 105, 110] 100 (-1/5) (1/10) = [] →
      calculate_second_average [90, 95, 100, 105, 110] 100 (-1/5) (1/10) =
        (100, [90, 95, 100, 105, 110], secondAvgNoteFallback)) :=
  second_average_band [90, 95, 100, 105, 110] 100 (-1/5) (1/10) (by norm_num) 100

/-! ### C3 and C10: the single-survivor fallback -/

/-- Shared helper: in the single-survivor branch the result is built from the
original list with every occurrence of its maximum filtered out (line 42 of
`app.py` filters `p != max(prices)` over the *original* list). -/
theorem first_average_single_eq (prices : List ℚ) (m k : ℕ)
    (hn : 3 < prices.length) (h1 : (remainingAfterTrim prices m k).length = 1) :
    calculate_first_average prices m k =
      (mean (prices.filter (fun p => decide (p ≠ listMax prices))),
       prices.filter (fun p => decide (p ≠ listMax prices)), firstAvgNoteOne) := by
  unfold calculate_first_average
  rw [if_neg (by omega), if_neg (by omega), if_pos h1]

/-- C3: for every price list of size `n > 3` and trim counts `m`, `k` leaving
exactly one survivor, `calculate_first_average` recomputes A1 as the mean of
the original list with its maximum price removed (every occurrence of the
maximum, matching the source's `p != max(prices)` filter — not the mean of
the single survivor), returns that reduced list as the basis, and flags the
fallback in the note. -/
theorem first_average_single_survivor (prices : List ℚ) (m k : ℕ)
    (hn : 3 < prices.length) (h1 : (remainingAfterTrim prices m k).length = 1) :
    calculate_first_average prices m k =
      (mean (prices.filter (fun p => decide (p ≠ listMax prices))),
       prices.filter (fun p => decide (p ≠ listMax prices)), firstAvgNoteOne) :=
  first_average_single_eq prices m k hn h1

/-- C3 witness: trimming the two lowest and two highest of five prices leaves
the single survivor 100, and the fallback averages the original list minus
its maximum 110. -/
theorem first_average_single_survivor_witness :
    calculate_first_average [100, 110, 90, 105, 95] 2 2 =
      (mean ([100, 110, 90, 105, 95].filter
        (fun p => decide (p ≠ listMax [100, 110, 90, 105, 95]))),
       [100, 110, 90, 105, 95].filter
        (fun p => decide (p ≠ listMax [100, 110, 90, 105, 95])), firstAvgNoteOne) :=
  first_average_single_survivor [100, 110, 90, 105, 95] 2 2 (by norm_num)
    (by with_unfolding_all decide)

/-- C10: in the single-survivor fallback, every occurrence of the maximum is
removed from the original list, not just one: whenever the maximum appears
more than once and the trim leaves exactly one survivor, the returned basis
contains no copy of the maximum at all. -/
theorem single_survivor_excludes_all_max (prices : List ℚ) (m k : ℕ)
    (hn : 3 < prices.length) (h1 : (remainingAfterTrim prices m k).length = 1)
    (hdup : 2 ≤ prices.count (listMax prices)) :
    listMax prices ∉ (calculate_first_average prices m k).2.1 := by
  rw [first_average_single_eq prices m k hn h1]
  simp [List.mem_filter]

/-- C10 witness: in `[1, 2, 3, 5, 5]` the maximum 5 appears twice; trimming
two from each end leaves the single survivor 3, and the fallback basis
contains no 5. -/
theorem single_survivor_excludes_all_max_witness :
    listMax [1, 2, 3, 5, 5] ∉ (calculate_first_average [1, 2, 3, 5, 5] 2 2).2.1 :=
  single_survivor_excludes_all_max [1, 2, 3, 5, 5] 2 2 (by norm_num)
    (by with_unfolding_all decide) (by with_unfolding_all decide)

/-! ### C8: over-trimming does not abort, it falls back to the full mean -/

/-- Helper: when `m ≤ n` and `k + m ≥ n`, the Python slice
`sorted_prices[k:n-m]` is empty. -/
theorem remaining_length_zero (prices : List ℚ) (m k : ℕ)
    (hm : m ≤ prices.length) (hkm : prices.length ≤ k + m) :
    (remainingAfterTrim prices m k).length = 0 := by
  unfold remainingAfterTrim trimStop
  rw [if_pos hm]
  simp [List.length_drop, List.length_take, List.length_insertionSort]
  omega

/-- C8 counterexample: with `n = 4` prices and trim counts `m = 2`, `k = 2`
(so `k + m ≥ n`), the run does not raise any error: `calculate_first_average`
is total and returns the full-mean fallback result with its zero-survivor
note, contradicting the claim that a `ConfigurationError` aborts the run
before a result is produced (no exception is raised anywhere in the source). -/
theorem trim_all_aborts_counterexample :
    calculate_first_average [1, 2, 3, 4] 2 2 =
      (5/2, [1, 2, 3, 4], firstAvgNoteZero) := by
  with_unfolding_all decide

/-- C8 amended: if the trim counts would remove all prices (`n > 3`, `m ≤ n`
and `k + m ≥ n`), the evaluation run does not abort; `calculate_first_average`
falls back to the mean of all original prices, keeps the full list as basis,
and flags the zero-survivor fallback in the note. -/
theorem first_average_trim_all_fallback (prices : List ℚ) (m k : ℕ)
    (hn : 3 < prices.length) (hm : m ≤ prices.length)
    (hkm : prices.length ≤ k + m) :
    calculate_first_average prices m k = (mean prices, prices, firstAvgNoteZero) := by
  unfold calculate_first_average
  rw [if_neg (by omega), if_pos (remaining_length_zero prices m k hm hkm)]

/-- C8 witness: four prices with `m = 3`, `k = 1` leave no survivor; the
result is the mean of the full original list with the zero-survivor note. -/
theorem first_average_trim_all_fallback_witness :
    calculate_first_average [10, 20, 30, 40] 3 1 =
      (mean [10, 20, 30, 40], [10, 20, 30, 40], firstAvgNoteZero) :=
  first_average_trim_all_fallback [10, 20, 30, 40] 3 1 (by norm_num) (by norm_num)
    (by norm_num)

/-! ### C2 and C1: the degenerate all-equal single-survivor input -/

/-- C2 (code bug): on the validated all-positive input `[1, 1, 1, 1]` with
trim counts `m = 2`, `k = 1`, exactly one price survives the trim, and the
single-survivor fallback filters `p ≠ max` over an all-equal list: the
returned basis is *empty* and A1 is the mean of the empty list (`np.mean([])`
is NaN in the source; `0` under the rational convention used here), violating
the claimed invariants that the basis is non-empty and A1, A2 are strictly
positive. -/
theorem single_survivor_empty_basis_bug :
    (calculate_first_average [1, 1, 1, 1] 2 1).2.1 = [] ∧
    (calculate_first_average [1, 1, 1, 1] 2 1).1 = mean [] := by
  with_unfolding_all decide

/-- C1 (code bug): on the same validated input `[1, 1, 1, 1]` with `m = 2`,
`k = 1` and `K = 9/10`, the benchmark price `D = A2 × K` fed to the scoring
operation is the mean of an empty list scaled by `K` (`0` under the rational
convention; NaN in the source's floating point, since `np.mean([])` is NaN).
Every score is then computed as `100 - |p - D| / D × ...` with this
degenerate `D`, so the source produces NaN scores — not values in
`[0, 100]`. -/
theorem nan_benchmark_bug :
    (calculate_second_average (calculate_first_average [1, 1, 1, 1] 2 1).2.1
        (calculate_first_average [1, 1, 1, 1] 2 1).1 (-1/5) (1/10)).1 * (9/10)
      = mean [] * (9/10) := by
  with_unfolding_all decide

/-! ### C7: monotonicity in the absolute deviation from the benchmark -/

/-- C7 counterexample: with `D = 100`, `E_higher = 1`, `E_lower = 1/2`, the
bid 110 deviates less (10) than the bid 89 deviates (11), yet 110 scores 90
while 89 scores 94.5: the asymmetric penalty coefficients break monotonicity
in `|p − D|` across the two sides of the benchmark. -/
theorem score_monotone_counterexample :
    |(110 : ℚ) - 100| ≤ |(89 : ℚ) - 100| ∧
    calculate_price_score 110 100 1 (1/2) < calculate_price_score 89 100 1 (1/2) := by
  constructor
  · norm_num
  · norm_num [calculate_price_score, round2, round_eq]

/-- C7 amended: for fixed `D > 0` and non-negative `E_higher`, `E_lower`, the
score is monotonically non-increasing in `|p − D|` among bids on the *same
side* of the benchmark (both at-or-above `D`, or both at-or-below `D`); the
original claim fails across sides when the two coefficients differ. -/
theorem score_monotone_same_side (D eh el p1 p2 : ℚ) (hD : 0 < D) (heh : 0 ≤ eh)
    (hel : 0 ≤ el) (hside : (D ≤ p1 ∧ D ≤ p2) ∨ (p1 ≤ D ∧ p2 ≤ D))
    (hle : |p1 - D| ≤ |p2 - D|) :
    calculate_price_score p2 D eh el ≤ calculate_price_score p1 D eh el := by
  by_cases h1 : p1 = D
  · have hp1 : calculate_price_score p1 D eh el = 100 := by
      unfold calculate_price_score
      rw [h1, if_pos rfl]
    rw [hp1]
    exact score_le_hundred p2 D eh el (le_of_lt hD) heh hel
  · have h2 : p2 ≠ D := by
      intro hh
      apply h1
      rw [hh, sub_self, abs_zero] at hle
      have habs : |p1 - D| = 0 := le_antisymm hle (abs_nonneg _)
      have := abs_eq_zero.mp habs
      linarith [this]
    rcases hside with ⟨ha1, ha2⟩ | ⟨hb1, hb2⟩
    · have hgt1 : p1 > D := lt_of_le_of_ne ha1 (Ne.symm h1)
      have hgt2 : p2 > D := lt_of_le_of_ne ha2 (Ne.symm h2)
      unfold calculate_price_score
      rw [if_neg h2, if_neg h1, if_pos hgt2, if_pos hgt1]
      refine max_le_max ?_ (le_refl 0)
      apply round2_mono
      have hmul : |p1 - D| / D * 100 * eh ≤ |p2 - D| / D * 100 * eh := by gcongr
      linarith
    · have hnlt1 : ¬ p1 > D := not_lt.mpr hb1
      have hnlt2 : ¬ p2 > D := not_lt.mpr hb2
      unfold calculate_price_score
      rw [if_neg h2, if_neg h1, if_neg hnlt2, if_neg hnlt1]
      refine max_le_max ?_ (le_refl 0)
      apply round2_mono
      have hmul : |p1 - D| / D * 100 * el ≤ |p2 - D| / D * 100 * el := by gcongr
      linarith

/-- C7 witness: on the above-benchmark side with `D = 100`, the bid 110
(deviation 10) scores no more than the bid 105 (deviation 5). -/
theorem score_monotone_same_side_witness :
    calculate_price_score 110 100 1 (1/2) ≤ calculate_price_score 105 100 1 (1/2) :=
  score_monotone_same_side 100 1 (1/2) 105 110 (by norm_num) (by norm_num)
    (by norm_num) (Or.inl ⟨by norm_num, by norm_num⟩) (by norm_num)

/-! ### C9: the spec's concrete scenario -/

/-- C9: for `prices = [100, 110, 90, 105, 95]`, no trimming, `s1 = -0.2`,
`s2 = 0.1`, `K = 0.9`, `E_higher = 1`, `E_lower = 0.5`: A1 = 100, all five
prices survive the deviation band so A2 = 100, the benchmark is
`D = A2 × K = 90`, the bid 100 scores 88.89 and the bid 90 scores exactly
100; the full per-bid score row of the pipeline is listed last. -/
theorem concrete_scenario_pipeline :
    calculate_first_average [100, 110, 90, 105, 95] 0 0 =
      (100, [90, 95, 100, 105, 110], firstAvgNoteRest) ∧
    calculate_second_average [90, 95, 100, 105, 110] 100 (-1/5) (1/10) =
      (100, [90, 95, 100, 105, 110], secondAvgNoteBand) ∧
    (calculate_second_average
        (calculate_first_average [100, 110, 90, 105, 95] 0 0).2.1
        (calculate_first_average [100, 110, 90, 105, 95] 0 0).1
        (-1/5) (1/10)).1 * (9/10) = 90 ∧
    calculate_price_score 100 90 1 (1/2) = 8889/100 ∧
    calculate_price_score 90 90 1 (1/2) = 100 ∧
    evaluateScores [100, 110, 90, 105, 95] 0 0 (-1/5) (1/10) (9/10) 1 (1/2) =
      [8889/100, 7778/100, 100, 8333/100, 9444/100] := by
  have h1 : calculate_first_average [100, 110, 90, 105, 95] 0 0 =
      (100, [90, 95, 100, 105, 110], firstAvgNoteRest) := by
    with_unfolding_all decide
  have h2 : calculate_second_average [90, 95, 100, 105, 110] 100 (-1/5) (1/10) =
      (100, [90, 95, 100, 105, 110], secondAvgNoteBand) := by
    with_unfolding_all decide
  refine ⟨h1, h2, ?_, ?_, ?_, ?_⟩
  · rw [h1]
    with_unfolding_all decide
  · norm_num [calculate_price_score, round2, round_eq]
  · norm_num [calculate_price_score]
  · simp only [evaluateScores, h1, h2]
    norm_num [calculate_price_score, round2, round_eq]

end App
